import Mathlib

/-!
Shallow embedding of the sonicpi-mcp bridge process: the ring-buffer log
(logging.py), the OSC transport client (osc_client.py), the pattern library
(patterns.py), the music generator (ai_generator.py) and the stdio
request/response loop (server.py).  External effects (the wall clock, the
lsof subprocess, the UDP socket, the OpenAI API, uuid generation and the
filesystem diagnostics) are supplied through an explicit environment value;
everything else is translated directly from the Python source.
-/

namespace SonicPiMcp

/- Python-style string helpers: substring test, lower-casing, digit runs. -/

def containsSub (s pat : String) : Bool :=
  s.toList.tails.any (fun t => pat.toList.isPrefixOf t)

def lowerStr (s : String) : String :=
  String.mk (s.toList.map Char.toLower)

def digitsToNat (ds : List Char) : Nat :=
  ds.foldl (fun a c => a * 10 + (c.toNat - 48)) 0

/- logging.py -/

structure LogRecord where
  ts : ℚ
  level : String
  message : String
deriving DecidableEq, Repr

structure LogEntry where
  ts : ℚ
  level : String
  message : String
deriving DecidableEq, Repr

structure RingLogger where
  maxEntries : Nat
  buffer : List LogRecord
deriving DecidableEq, Repr

def RingLogger.mk0 (maxEntries : Nat := 1000) : RingLogger :=
  ⟨maxEntries, []⟩

-- RingLogger.log: append a record stamped time.time()*1000; the deque with
-- maxlen drops elements from the front once the buffer would exceed capacity.
-- The wall-clock reading (seconds) is passed in as `now`.
def RingLogger.logR (s : RingLogger) (now : ℚ) (level message : String) : RingLogger :=
  let r : LogRecord := ⟨now * 1000, level, message⟩
  { s with buffer := (s.buffer ++ [r]).drop (s.buffer.length + 1 - s.maxEntries) }

def toEntry (r : LogRecord) : LogEntry :=
  ⟨r.ts, r.level, r.message⟩

-- RingLogger.get_entries: keep records with ts > since_ms (all when absent).
def RingLogger.getEntries (s : RingLogger) (sinceMs : Option ℚ) : List LogEntry :=
  (s.buffer.filter fun r =>
    match sinceMs with
    | none => true
    | some m => decide (m < r.ts)).map toEntry

def RingLogger.logMany (s : RingLogger) (xs : List (ℚ × String × String)) : RingLogger :=
  xs.foldl (fun a x => a.logR x.1 x.2.1 x.2.2) s

def mkRecord (x : ℚ × String × String) : LogRecord :=
  ⟨x.1 * 1000, x.2.1, x.2.2⟩

/- config.py: OscConfig defaults and the values load_config installs when no
   environment variables are set (note load_config overrides run_code_path and
   cue_path with different defaults than the OscConfig field defaults). -/

structure OscConfig where
  host : String := "127.0.0.1"
  port : Nat := 4557
  runCodePath : String := "/save-and-run-buffer"
  stopAllPath : String := "/stop-all-jobs"
  setBpmPath : String := "/bpm"
  cuePath : String := "/sync"
deriving DecidableEq, Repr

def loadConfig : OscConfig :=
  { host := "127.0.0.1", port := 4557, runCodePath := "/run-code",
    stopAllPath := "/stop-all-jobs", setBpmPath := "/bpm", cuePath := "/cue" }

/- Diagnostic payload (get_diagnostic_info): produced entirely from host
   state (filesystem, sockets, environment variables), so it is supplied by
   the environment as an opaque record. -/

structure DiagInfo where
  commandPort : Option Nat := none
  blob : String := ""
deriving DecidableEq, Repr

/- The environment: every external effect the embedded code consults. -/

structure Env where
  lsof : Option String := none
  oscSendFault : Option String := none
  runCodeFault : Option String := none
  jobId : String := ""
  elapsedMs : ℚ := 0
  openaiAvailable : Bool := false
  aiContent : Option String := none
  diag : Except String DiagInfo := .error "diagnostics unavailable"
  logFilePort : Option Nat := none
deriving Repr

/- osc_client.py: OscClient._discover_sonic_pi_port.  Scans each line of the
   lsof output; a line qualifies when it contains "sonic" case-insensitively,
   "UDP" and "127.0.0.1:".  The regex 127\.0\.0\.1:(\d+) then takes, at the
   first occurrence of "127.0.0.1:" that is followed by a digit, the maximal
   digit run.  A `none` input models lsof being unavailable, timing out, or
   failing. -/

def extractPort127 : List Char → Option Nat
  | [] => none
  | c :: rest =>
    if ("127.0.0.1:".toList).isPrefixOf (c :: rest) then
      let ds := ((c :: rest).drop 10).takeWhile Char.isDigit
      if ds.isEmpty then extractPort127 rest else some (digitsToNat ds)
    else extractPort127 rest

-- str.split of Python: cut the character list at every newline.
def splitNl : List Char → List (List Char)
  | [] => [[]]
  | x :: xs =>
    let r := splitNl xs
    if x == '\n' then [] :: r
    else
      match r with
      | [] => [[x]]
      | h :: t => (x :: h) :: t

def sonicLineMatches (line : String) : Bool :=
  containsSub (lowerStr line) "sonic" && containsSub line "UDP" && containsSub line "127.0.0.1:"

def discoverSonicPiPort (lsofOut : Option String) : Option Nat :=
  match lsofOut with
  | none => none
  | some out =>
    ((splitNl out.toList).map String.mk).findSome? fun line =>
      if sonicLineMatches line then extractPort127 line.toList else none

/- OSC message arguments: send_message types each positional argument by
   isinstance inspection (str, int, float, anything else untyped). -/

inductive PyVal where
  | str (v : String)
  | int (v : Int)
  | float (v : ℚ)
  | other
deriving DecidableEq, Repr

inductive OscArg where
  | s (v : String)
  | i (v : Int)
  | f (v : ℚ)
  | auto
deriving DecidableEq, Repr

def typedArg : PyVal → OscArg
  | .str v => .s v
  | .int v => .i v
  | .float v => .f v
  | .other => .auto

/- Observable effects of the transport layer.  `send` records the host/port
   the bound client targets, the address, the typed arguments and whether the
   datagram left without the socket raising; `clientInit` records one run of
   _init_client; `plog` records a stdout diagnostic print (most incidental
   prints are elided, the ones claims inspect are kept). -/

inductive Event where
  | send (host : String) (port : Nat) (address : String) (args : List OscArg) (delivered : Bool)
  | clientInit
  | plog (msg : String)
deriving DecidableEq, Repr

def Event.isSendEv : Event → Bool
  | .send .. => true
  | _ => false

def Event.isInitEv : Event → Bool
  | .clientInit => true
  | _ => false

structure OscClientState where
  config : OscConfig
  client : Option (String × Nat)
  lastDiscoveredPort : Option Nat
deriving DecidableEq, Repr

/- OscClient._init_client: run discovery; a truthy discovered port that
   differs from the last discovered one is written into config.port and
   remembered; the UDP client handle is always rebuilt against the current
   host/port. -/

def initClient (env : Env) (st : OscClientState) : OscClientState × List Event :=
  let d := discoverSonicPiPort env.lsof
  let st :=
    match d with
    | some p =>
      if p != 0 && st.lastDiscoveredPort != some p then
        { st with config := { st.config with port := p }, lastDiscoveredPort := some p }
      else st
    | none => st
  ({ st with client := some (st.config.host, st.config.port) }, [.clientInit])

/- OscClient.send_message: if the handle is unset, initialize it; build a
   typed message and send it through the handle.  When the send raises, the
   fault is printed, _init_client runs once to rebind, and the original fault
   is re-raised (the send itself is not retried). -/

def sendMessage (env : Env) (st : OscClientState) (address : String) (args : List PyVal) :
    OscClientState × Except String Unit × List Event :=
  let (st1, ev0) := if st.client.isNone then initClient env st else (st, [])
  let oargs := args.map typedArg
  match st1.client with
  | some (h, p) =>
    match env.oscSendFault with
    | none => (st1, .ok (), ev0 ++ [.send h p address oargs true])
    | some e =>
      let (st2, ev1) := initClient env st1
      (st2, .error e,
        ev0 ++ [.send h p address oargs false,
                .plog ("ERROR: Failed to send OSC message to " ++ address ++ ": " ++ e)] ++ ev1)
  | none =>
    -- unreachable: _init_client always installs a client handle
    (st1, .error "no client", ev0)

/- OscClient.run_code: fresh job id, source stripped, then sent on a fresh
   client hard-wired to 192.168.2.62:4560 at address /mcp/code; the elapsed
   time is printed in a finally block regardless of outcome. -/

def oscRunCode (env : Env) (st : OscClientState) (source : String) :
    OscClientState × Except String String × List Event :=
  let jobId := env.jobId
  let formatted := source.trim
  match env.runCodeFault with
  | none =>
    (st, .ok jobId,
      [.send "192.168.2.62" 4560 "/mcp/code" [.s formatted] true,
       .plog ("INFO: Sent code to Sonic Pi via /mcp/code (job " ++ jobId ++ ")"),
       .plog ("INFO: Code execution took " ++ toString env.elapsedMs ++ "ms")])
  | some e =>
    (st, .error e,
      [.send "192.168.2.62" 4560 "/mcp/code" [.s formatted] false,
       .plog ("ERROR: Failed to run code: " ++ e),
       .plog ("INFO: Code execution took " ++ toString env.elapsedMs ++ "ms")])

/- The thin typed wrappers stop_all, set_bpm, cue: forward to send_message on
   the configured path and re-raise any fault. -/

def oscStopAll (env : Env) (st : OscClientState) :
    OscClientState × Except String Unit × List Event :=
  let (st1, r, ev) := sendMessage env st st.config.stopAllPath []
  (st1, r, ev)

def oscSetBpm (env : Env) (st : OscClientState) (bpm : ℚ) :
    OscClientState × Except String Unit × List Event :=
  let (st1, r, ev) := sendMessage env st st.config.setBpmPath [.float bpm]
  (st1, r, ev)

def oscCue (env : Env) (st : OscClientState) (tag : String) :
    OscClientState × Except String Unit × List Event :=
  let (st1, r, ev) := sendMessage env st st.config.cuePath [.str tag]
  (st1, r, ev)

/- patterns.py: the three pattern tables.  Entries keep the description, the
   optional per-pattern bpm field (only drum patterns have one) and the code
   string exactly as the already-stripped Python literal. -/

structure PatternEntry where
  description : String
  bpm : Option Int := none
  code : String
deriving DecidableEq, Repr

def DRUM_PATTERNS : List (String × PatternEntry) :=
  [("rock",
    { description := "Classic rock drum beat", bpm := some 120,
      code := "use_bpm {bpm}\nlive_loop :rock_drums do\n  sample :bd_haus  # Kick on 1 and 3\n  sleep 1\n  sample :sn_dub   # Snare on 2 and 4\n  sleep 1\n  sample :bd_haus\n  sleep 1\n  sample :sn_dub\n  sleep 1\nend" }),
   ("techno",
    { description := "Four-on-the-floor techno beat", bpm := some 128,
      code := "use_bpm {bpm}\nlive_loop :techno_kick do\n  sample :bd_tek, amp: 1.5\n  sleep 1\nend\n\nlive_loop :techno_hats do\n  sample :drum_cymbal_closed, amp: 0.5\n  sleep 0.5\nend" }),
   ("jazz",
    { description := "Swing jazz drum pattern", bpm := some 140,
      code := "use_bpm {bpm}\nlive_loop :jazz_drums do\n  sample :bd_soft\n  sleep 1\n  sample :drum_snare_soft, amp: 0.7\n  sleep 1.5\n  sample :bd_soft\n  sleep 0.5\n  sample :drum_snare_soft, amp: 0.7\n  sleep 1\nend" }),
   ("hip_hop",
    { description := "Hip-hop drum pattern with emphasis", bpm := some 90,
      code := "use_bpm {bpm}\nlive_loop :hiphop_drums do\n  sample :bd_boom  # Heavy kick\n  sleep 1\n  sample :sn_dub, amp: 1.2  # Snappy snare\n  sleep 1\n  sample :bd_boom\n  sleep 0.5\n  sample :bd_boom\n  sleep 0.5\n  sample :sn_dub, amp: 1.2\n  sleep 1\nend" })]

def BASS_PATTERNS : List (String × PatternEntry) :=
  [("rock",
    { description := "Rock bass line",
      code := "live_loop :rock_bass do\n  use_synth :fm\n  play :e2, release: 0.8, amp: 1.5\n  sleep 1\n  play :e2, release: 0.4, amp: 1\n  sleep 0.5\n  play :g2, release: 0.4, amp: 1\n  sleep 0.5\n  play :e2, release: 0.8, amp: 1.5\n  sleep 1\n  play :d2, release: 0.8, amp: 1.2\n  sleep 1\nend" }),
   ("funk",
    { description := "Funky bass line with rhythm",
      code := "live_loop :funk_bass do\n  use_synth :tb303\n  play :c2, release: 0.2, cutoff: 70, amp: 1.5\n  sleep 0.25\n  sleep 0.25\n  play :c2, release: 0.1, cutoff: 60, amp: 1\n  sleep 0.25\n  play :eb2, release: 0.3, cutoff: 80, amp: 1.2\n  sleep 0.25\n  play :c2, release: 0.2, cutoff: 70, amp: 1.5\n  sleep 1\nend" })]

def CHORD_PROGRESSIONS : List (String × PatternEntry) :=
  [("pop",
    { description := "Popular I-V-vi-IV progression",
      code := "live_loop :pop_chords do\n  use_synth :blade\n  play_chord [:c4, :e4, :g4], release: 1.5, amp: 0.8  # C major\n  sleep 2\n  play_chord [:g3, :b3, :d4], release: 1.5, amp: 0.8  # G major\n  sleep 2\n  play_chord [:a3, :c4, :e4], release: 1.5, amp: 0.8  # A minor\n  sleep 2\n  play_chord [:f3, :a3, :c4], release: 1.5, amp: 0.8  # F major\n  sleep 2\nend" }),
   ("blues",
    { description := "12-bar blues progression",
      code := "live_loop :blues_chords do\n  use_synth :piano\n  # I chord (4 bars)\n  4.times do\n    play_chord [:c3, :e3, :g3], release: 0.8, amp: 0.7\n    sleep 1\n  end\n  \n  # IV chord (2 bars)\n  2.times do\n    play_chord [:f3, :a3, :c4], release: 0.8, amp: 0.7\n    sleep 1\n  end\n  \n  # I chord (2 bars)\n  2.times do\n    play_chord [:c3, :e3, :g3], release: 0.8, amp: 0.7\n    sleep 1\n  end\n  \n  # V-IV-I-I\n  play_chord [:g3, :b3, :d4], release: 0.8, amp: 0.7\n  sleep 1\n  play_chord [:f3, :a3, :c4], release: 0.8, amp: 0.7\n  sleep 1\n  play_chord [:c3, :e3, :g3], release: 0.8, amp: 0.7\n  sleep 2\nend" })]

def patternTables : List (String × List (String × PatternEntry)) :=
  [("drums", DRUM_PATTERNS), ("bass", BASS_PATTERNS), ("chords", CHORD_PROGRESSIONS)]

/- patterns.get_pattern.  The pattern name is an Option because callers pass
   Python values that may be None (dict lookup with None finds nothing).  The
   bpm keyword argument is Option (Option Int): outer layer = whether the
   caller passed the keyword at all, inner layer = the Python value (None or
   an int).  kwargs.setdefault installs the per-pattern bpm when the keyword
   is absent and the pattern declares one; a present-but-None bpm is repaired
   to the per-pattern bpm (or 120).  str.format substitutes every occurrence
   of the placeholder; a placeholder with no matching keyword raises KeyError
   and the unformatted code is returned. -/

def getPattern (category : String) (patternName : Option String)
    (bpmArg : Option (Option Int)) : Option String :=
  match patternTables.lookup category with
  | none => none
  | some tbl =>
    match patternName with
    | none => none
    | some name =>
      match tbl.lookup name with
      | none => none
      | some entry =>
        let kwargs : Option (Option Int) :=
          match bpmArg with
          | some v => some v
          | none =>
            match entry.bpm with
            | some b => some (some b)
            | none => none
        let kwargs : Option (Option Int) :=
          match kwargs with
          | some none => some (some (entry.bpm.getD 120))
          | k => k
        if containsSub entry.code "{bpm}" then
          match kwargs with
          | some (some b) => some (entry.code.replace "{bpm}" (toString b))
          | _ => some entry.code
        else some entry.code

def listPatternsF : List (String × List String) :=
  [("drums", DRUM_PATTERNS.map (·.1)),
   ("bass", BASS_PATTERNS.map (·.1)),
   ("chords", CHORD_PROGRESSIONS.map (·.1))]

def getPatternDescription (category name : String) : Option String :=
  match patternTables.lookup category with
  | none => none
  | some tbl =>
    match tbl.lookup name with
    | none => none
    | some entry => some entry.description

/- ai_generator.py: MusicAI. -/

structure MusicElements where
  instruments : List String
  genre : Option String
  bpm : Option Int
  key : Option String
  mood : Option String
  complexity : String
deriving DecidableEq, Repr

def genrePatterns : List (String × List String) :=
  [("rock", ["rock", "metal", "punk"]),
   ("jazz", ["jazz", "swing", "bebop"]),
   ("techno", ["techno", "electronic", "edm", "house"]),
   ("hip_hop", ["hip hop", "hip-hop", "rap", "trap"]),
   ("pop", ["pop", "commercial"]),
   ("blues", ["blues", "country"]),
   ("funk", ["funk", "funky"])]

def instrumentPatterns : List (String × List String) :=
  [("drums", ["drum", "beat", "rhythm", "percussion"]),
   ("bass", ["bass", "bassline"]),
   ("piano", ["piano", "keys", "keyboard"]),
   ("guitar", ["guitar"]),
   ("synth", ["synth", "synthesizer", "electronic"])]

/- re.search((\d+)\s*bpm) over the lower-cased request: scan positions left to
   right; at a digit take the maximal digit run, skip whitespace, and demand
   the literal bpm; on failure resume at the next position. -/

def findBpm : List Char → Option Nat
  | [] => none
  | c :: rest =>
    if c.isDigit then
      let ds := (c :: rest).takeWhile Char.isDigit
      let after := ((c :: rest).drop ds.length).dropWhile Char.isWhitespace
      if "bpm".toList.isPrefixOf after then some (digitsToNat ds) else findBpm rest
    else findBpm rest

def parseRequest (request : String) : MusicElements :=
  let rl := lowerStr request
  let genre := (genrePatterns.find? fun gp => gp.2.any fun kw => containsSub rl kw).map (·.1)
  let instruments :=
    (instrumentPatterns.filter fun ip => ip.2.any fun kw => containsSub rl kw).map (·.1)
  let bpm := (findBpm rl.toList).map Int.ofNat
  let mood :=
    if ["fast", "energetic", "upbeat", "intense"].any (fun w => containsSub rl w) then
      some "energetic"
    else if ["slow", "chill", "relaxed", "calm"].any (fun w => containsSub rl w) then
      some "calm"
    else none
  { instruments := instruments, genre := genre, bpm := bpm, key := none, mood := mood,
    complexity := "medium" }

/- str(elements): the Python repr of the elements dict, in insertion order,
   needed because generate_pattern_based_code tests "beat" in str(elements). -/

def pyReprStr (s : String) : String := "\x27" ++ s ++ "\x27"

def pyReprOptStr : Option String → String
  | none => "None"
  | some s => pyReprStr s

def pyReprOptInt : Option Int → String
  | none => "None"
  | some i => toString i

def pyReprStrList (l : List String) : String :=
  "[" ++ String.intercalate ", " (l.map pyReprStr) ++ "]"

def pyStrElements (e : MusicElements) : String :=
  "\x7b\x27instruments\x27: " ++ pyReprStrList e.instruments ++
  ", \x27genre\x27: " ++ pyReprOptStr e.genre ++
  ", \x27bpm\x27: " ++ pyReprOptInt e.bpm ++
  ", \x27key\x27: " ++ pyReprOptStr e.key ++
  ", \x27mood\x27: " ++ pyReprOptStr e.mood ++
  ", \x27complexity\x27: " ++ pyReprStr e.complexity ++ "\x7d"

-- Python truthiness of an optional int (None and 0 are falsy).
def truthyOptInt : Option Int → Bool
  | none => false
  | some i => i != 0

/- MusicAI.generate_pattern_based_code.  Note elements.get("bpm", 120) and
   elements.get("genre", ...) never see their defaults: both keys are always
   present in the dict (possibly None), so the Python value flows through. -/

def generatePatternBasedCode (e : MusicElements) : Option String :=
  let bpm : Option Int := e.bpm
  let bpm :=
    if e.mood == some "energetic" && !(truthyOptInt e.bpm) then some 140
    else if e.mood == some "calm" && !(truthyOptInt e.bpm) then some 80
    else bpm
  let parts : List String := []
  let parts :=
    if e.instruments.contains "drums" || containsSub (pyStrElements e) "beat" then
      match getPattern "drums" e.genre (some bpm) with
      | some c => if c ≠ "" then parts ++ [c] else parts
      | none => parts
    else parts
  let parts :=
    if e.instruments.contains "bass" then
      match getPattern "bass" e.genre none with
      | some c => if c ≠ "" then parts ++ [c] else parts
      | none => parts
    else parts
  let parts :=
    if ["piano", "guitar", "synth"].any (fun i => e.instruments.contains i) then
      match getPattern "chords" e.genre none with
      | some c => if c ≠ "" then parts ++ [c] else parts
      | none => parts
    else parts
  if parts.isEmpty then none else some (String.intercalate "\n\n" parts)

/- MusicAI.generate_ai_code: the API interaction is external (the content it
   returns, or that every model failed, comes from the environment); the
   markdown-fence stripping of the returned content is code. -/

def stripMarkdown (content : String) : String :=
  let c := content.trim
  let c :=
    if c.startsWith "```ruby" then c.drop 7
    else if c.startsWith "```" then c.drop 3
    else c
  let c := if c.endsWith "```" then c.dropRight 3 else c
  c.trim

def generateAiCode (openaiAvailable : Bool) (aiContent : Option String) : Option String :=
  if !openaiAvailable then none
  else
    match aiContent with
    | none => none
    | some content => some (stripMarkdown content)

def fallbackCode : String :=
  "use_bpm 120\nlive_loop :simple_beat do\n  sample :bd_haus\n  sleep 1\n  sample :sn_dub\n  sleep 1\nend"

/- MusicAI.generate_music_code: AI first when a client exists and its result
   is truthy, then patterns when truthy, then the hardcoded fallback.
   aiTruthyStep is the guarded first stage: the truthy AI result, if any. -/

def aiTruthyStep (openaiAvailable : Bool) (aiContent : Option String) : Option String :=
  if openaiAvailable then
    match generateAiCode openaiAvailable aiContent with
    | some c => if c ≠ "" then some c else none
    | none => none
  else none

def generateMusicCode (openaiAvailable : Bool) (aiContent : Option String)
    (request : String) : String × String :=
  let elements := parseRequest request
  match aiTruthyStep openaiAvailable aiContent with
  | some c => (c, "ai")
  | none =>
    match generatePatternBasedCode elements with
    | some c => if c ≠ "" then (c, "patterns") else (fallbackCode, "fallback")
    | none => (fallbackCode, "fallback")

def suggestImprovements (request : String) : List String :=
  let e := parseRequest request
  (if e.instruments.isEmpty then
    ["Try specifying instruments like \x27drums\x27, \x27bass\x27, or \x27piano\x27"]
   else []) ++
  (if e.genre.isNone then
    ["Consider adding a genre like \x27rock\x27, \x27jazz\x27, or \x27techno\x27"]
   else []) ++
  (if !(truthyOptInt e.bpm) then
    ["You can specify tempo with \x27at 120 BPM\x27 or \x27fast tempo\x27"]
   else [])

/- server.py: McpServer and the stdio loop. -/

abbrev RequestId := Option Int

/- Tool arguments as decoded from the JSON object, one optional typed field
   per declared schema field; an absent or wrongly-typed field is none. -/

structure ToolArgs where
  tag : Option String := none
  bpm : Option ℚ := none
  source : Option String := none
  sinceMs : Option ℚ := none
  request : Option String := none
  category : Option String := none
  patternName : Option String := none
  patternBpm : Option Int := none
deriving DecidableEq, Repr

/- The pydantic input models; _parse_input re-raises a ValidationError as
   ValueError("Invalid input: ..."), whose message reaches _handle_error. -/

def parseRunCodeInput (a : ToolArgs) : Except String String :=
  match a.source with
  | some s => .ok s
  | none => .error "Invalid input: source missing"

def parseSetBpmInput (a : ToolArgs) : Except String ℚ :=
  match a.bpm with
  | some b => if 0 < b then .ok b else .error "Invalid input: bpm must be a positive float"
  | none => .error "Invalid input: bpm missing"

def parseCueInput (a : ToolArgs) : Except String String :=
  match a.tag with
  | some t => if 1 ≤ t.length then .ok t else .error "Invalid input: tag too short"
  | none => .error "Invalid input: tag missing"

def parseTailLogsInput (a : ToolArgs) : Except String (Option ℚ) :=
  .ok a.sinceMs

def parseGenerateMusicInput (a : ToolArgs) : Except String String :=
  match a.request with
  | some r => .ok r
  | none => .error "Invalid input: request missing"

def parseCreateAndPlayInput (a : ToolArgs) : Except String String :=
  match a.request with
  | some r => .ok r
  | none => .error "Invalid input: request missing"

def parseGetPatternInput (a : ToolArgs) : Except String (String × String × Option Int) :=
  match a.category, a.patternName with
  | some c, some n => .ok (c, n, a.patternBpm)
  | _, _ => .error "Invalid input: category and pattern_name required"

/- Response payloads (the model_dump dictionaries placed in the result field;
   success payloads also carry ok=true from SuccessResponse). -/

inductive Payload where
  | cueR (tag : String)
  | stopAllR
  | setBpmR (bpm : ℚ)
  | tailLogsR (entries : List LogEntry)
  | runCodeR (jobId : String) (elapsedMs : ℚ)
  | initializeR
  | generateMusicR (code methodUsed : String) (suggestions : List String)
  | listPatternsR (patterns : List (String × List String))
  | getPatternR (code description : String)
  | createAndPlayR (code methodUsed jobId : String) (elapsedMs : ℚ) (suggestions : List String)
  | diagnoseR (info : DiagInfo)
deriving DecidableEq, Repr

/- One protocol line written to stdout.  legacyError is the response shape
   declared by schemas.ErrorResponse (ok=false, string code); it is included
   so claims about that shape can be stated, the server embedding never
   produces it. -/

inductive OutLine where
  | result (id : Option Int) (payload : Payload)
  | errorL (id : Option Int) (code : Int) (message : String)
  | toolsListL (id : Option Int) (tools : List (String × String))
  | legacyError (code : String) (message : String)
deriving DecidableEq, Repr

def OutLine.isJsonRpcError : OutLine → Bool
  | .errorL .. => true
  | _ => false

def OutLine.isLegacyShape : OutLine → Bool
  | .legacyError .. => true
  | _ => false

structure ServerState where
  osc : OscClientState
  -- none models the _current_request_id attribute never having been set
  -- (hasattr false); some v models it set to v.
  currentRequestId : Option RequestId
  ringLog : RingLogger
deriving DecidableEq, Repr

structure StepResult where
  state : ServerState
  output : List OutLine := []
  events : List Event := []
deriving DecidableEq, Repr

-- _handle_error maps the string code to a JSON-RPC numeric code.
def numericCode (code : String) : Int :=
  if code == "UNKNOWN_METHOD" then -32601
  else if code == "INVALID_JSON" then -32700
  else if code == "INVALID_FORMAT" then -32602
  else -32000

-- _handle_error overrides the passed request id with the stored
-- _current_request_id whenever the attribute exists and is not None.
def storedId (st : ServerState) (rid : RequestId) : RequestId :=
  match st.currentRequestId with
  | some (some i) => some i
  | _ => rid

def replyJsonrpc (rid : RequestId) (p : Payload) : List OutLine :=
  match rid with
  | none => []
  | some i => [.result (some i) p]

def handleError (st : ServerState) (code message : String) (rid : RequestId) : List OutLine :=
  [.errorL (storedId st rid) (numericCode code) message]

/- The ten tool handlers. -/

def hRunCode (env : Env) (st : ServerState) (a : ToolArgs) (rid : RequestId) : StepResult :=
  match parseRunCodeInput a with
  | .error e => { state := st, output := handleError st "RUN_CODE_ERROR" e rid }
  | .ok src =>
    let (osc1, r, ev) := oscRunCode env st.osc src
    let st1 := { st with osc := osc1 }
    match r with
    | .ok jid =>
      { state := st1, output := replyJsonrpc rid (.runCodeR jid env.elapsedMs), events := ev }
    | .error e => { state := st1, output := handleError st1 "RUN_CODE_ERROR" e rid, events := ev }

def hStopAll (env : Env) (st : ServerState) (_a : ToolArgs) (rid : RequestId) : StepResult :=
  let (osc1, r, ev) := oscStopAll env st.osc
  let st1 := { st with osc := osc1 }
  match r with
  | .ok _ => { state := st1, output := replyJsonrpc rid .stopAllR, events := ev }
  | .error e => { state := st1, output := handleError st1 "STOP_ALL_ERROR" e rid, events := ev }

def hSetBpm (env : Env) (st : ServerState) (a : ToolArgs) (rid : RequestId) : StepResult :=
  match parseSetBpmInput a with
  | .error e => { state := st, output := handleError st "SET_BPM_ERROR" e rid }
  | .ok b =>
    let (osc1, r, ev) := oscSetBpm env st.osc b
    let st1 := { st with osc := osc1 }
    match r with
    | .ok _ => { state := st1, output := replyJsonrpc rid (.setBpmR b), events := ev }
    | .error e => { state := st1, output := handleError st1 "SET_BPM_ERROR" e rid, events := ev }

def hCue (env : Env) (st : ServerState) (a : ToolArgs) (rid : RequestId) : StepResult :=
  match parseCueInput a with
  | .error e => { state := st, output := handleError st "CUE_ERROR" e rid }
  | .ok tag =>
    let (osc1, r, ev) := oscCue env st.osc tag
    let st1 := { st with osc := osc1 }
    match r with
    | .ok _ => { state := st1, output := replyJsonrpc rid (.cueR tag), events := ev }
    | .error e => { state := st1, output := handleError st1 "CUE_ERROR" e rid, events := ev }

def hTailLogs (_env : Env) (st : ServerState) (a : ToolArgs) (rid : RequestId) : StepResult :=
  match parseTailLogsInput a with
  | .error e => { state := st, output := handleError st "TAIL_LOGS_ERROR" e rid }
  | .ok since =>
    { state := st, output := replyJsonrpc rid (.tailLogsR (st.ringLog.getEntries since)) }

def hDiagnose (env : Env) (st : ServerState) (_a : ToolArgs) (rid : RequestId) : StepResult :=
  match env.diag with
  | .ok info => { state := st, output := replyJsonrpc rid (.diagnoseR info) }
  | .error e => { state := st, output := handleError st "DIAGNOSTIC_ERROR" e rid }

def hGenerateMusic (env : Env) (st : ServerState) (a : ToolArgs) (rid : RequestId) : StepResult :=
  match parseGenerateMusicInput a with
  | .error e => { state := st, output := handleError st "GENERATE_MUSIC_ERROR" e rid }
  | .ok req =>
    let (code, m) := generateMusicCode env.openaiAvailable env.aiContent req
    { state := st,
      output := replyJsonrpc rid (.generateMusicR code m (suggestImprovements req)) }

def hListPatterns (_env : Env) (st : ServerState) (_a : ToolArgs) (rid : RequestId) : StepResult :=
  { state := st, output := replyJsonrpc rid (.listPatternsR listPatternsF) }

-- The tail of the get_pattern handler, applied to the library lookup result.
def hGetPatternCont (st : ServerState) (rid : RequestId) (cat name : String)
    (res : Option String) : StepResult :=
  let notFound : StepResult :=
    { state := st,
      output := handleError st "PATTERN_NOT_FOUND"
        ("Pattern \x27" ++ name ++ "\x27 not found in category \x27" ++ cat ++ "\x27") rid }
  match res with
  | none => notFound
  | some c =>
    if c = "" then notFound
    else
      let d :=
        match getPatternDescription cat name with
        | some d => if d ≠ "" then d else "No description available"
        | none => "No description available"
      { state := st, output := replyJsonrpc rid (.getPatternR c d) }

def hGetPattern (_env : Env) (st : ServerState) (a : ToolArgs) (rid : RequestId) : StepResult :=
  match parseGetPatternInput a with
  | .error e => { state := st, output := handleError st "GET_PATTERN_ERROR" e rid }
  | .ok (cat, name, bpmO) =>
    -- bpm=input_data.bpm or 120: Python truthiness, so None and 0 become 120
    let b : Int :=
      match bpmO with
      | none => 120
      | some x => if x != 0 then x else 120
    hGetPatternCont st rid cat name (getPattern cat (some name) (some (some b)))

def hCreateAndPlay (env : Env) (st : ServerState) (a : ToolArgs) (rid : RequestId) : StepResult :=
  match parseCreateAndPlayInput a with
  | .error e => { state := st, output := handleError st "CREATE_AND_PLAY_ERROR" e rid }
  | .ok req =>
    let (code, m) := generateMusicCode env.openaiAvailable env.aiContent req
    let sugg := suggestImprovements req
    let (osc1, r, ev) := oscRunCode env st.osc code
    let st1 := { st with osc := osc1 }
    match r with
    | .ok jid =>
      { state := st1,
        output := replyJsonrpc rid (.createAndPlayR code m jid env.elapsedMs sugg),
        events := ev }
    | .error e =>
      { state := st1, output := handleError st1 "CREATE_AND_PLAY_ERROR" e rid, events := ev }

def toolNamesTable : List String :=
  ["run_code", "stop_all", "set_bpm", "cue", "tail_logs", "diagnose", "generate_music",
   "list_patterns", "get_pattern", "create_and_play"]

def dispatchTool (env : Env) (st : ServerState) (tool : String) (a : ToolArgs)
    (rid : RequestId) : StepResult :=
  if tool == "run_code" then hRunCode env st a rid
  else if tool == "stop_all" then hStopAll env st a rid
  else if tool == "set_bpm" then hSetBpm env st a rid
  else if tool == "cue" then hCue env st a rid
  else if tool == "tail_logs" then hTailLogs env st a rid
  else if tool == "diagnose" then hDiagnose env st a rid
  else if tool == "generate_music" then hGenerateMusic env st a rid
  else if tool == "list_patterns" then hListPatterns env st a rid
  else if tool == "get_pattern" then hGetPattern env st a rid
  else hCreateAndPlay env st a rid

def isRegistered (tool : Option String) : Bool :=
  match tool with
  | some t => toolNamesTable.contains t
  | none => false

-- Python f-string rendering of the possibly-absent tool name.
def showToolName : Option String → String
  | none => "None"
  | some t => t

/- McpServer._handle_tool_call: when the name is registered, the request id
   is stored in _current_request_id and the handler runs; otherwise an
   UNKNOWN_TOOL error is reported (without storing the id). -/

def handleToolCall (env : Env) (st : ServerState) (tool : Option String) (a : ToolArgs)
    (rid : RequestId) : StepResult :=
  if isRegistered tool then
    let st1 := { st with currentRequestId := some rid }
    dispatchTool env st1 (tool.getD "") a rid
  else
    { state := st,
      output := handleError st "UNKNOWN_TOOL" ("Unknown tool: " ++ showToolName tool) rid }

/- McpServer._list_tools: name and description of each registered tool (the
   JSON-schema parameter declarations are elided; no verified claim reads
   them).  The response is printed unconditionally, even when the request id
   is absent. -/

def toolsListData : List (String × String) :=
  [("run_code", "Run Sonic Pi code"),
   ("stop_all", "Stop all running jobs"),
   ("set_bpm", "Set the global BPM"),
   ("cue", "Send a cue message"),
   ("tail_logs", "Get recent log entries"),
   ("diagnose", "Run diagnostics to check Sonic Pi connection"),
   ("generate_music", "Generate Sonic Pi code from natural language description"),
   ("list_patterns", "List all available music patterns"),
   ("get_pattern", "Get a specific music pattern"),
   ("create_and_play", "Generate music from natural language and immediately play it")]

def listToolsStep (st : ServerState) (rid : RequestId) : StepResult :=
  { state := st, output := [.toolsListL rid toolsListData] }

structure McpParams where
  name : Option String := none
  arguments : ToolArgs := {}
deriving DecidableEq, Repr

/- One decoded input line.  malformed: json.loads raises.  mcp: an object
   carrying a (string) method field, checked first.  legacy: no method field
   but a tool field.  other: an object with neither discriminator. -/

inductive InMsg where
  | malformed (raw : String)
  | mcp (method : String) (params : McpParams) (id : RequestId)
  | legacy (tool : Option String) (args : ToolArgs)
  | other
deriving DecidableEq, Repr

def handleMcpMessage (env : Env) (st : ServerState) (method : String) (params : McpParams)
    (rid : RequestId) : StepResult :=
  if method == "initialize" then { state := st, output := replyJsonrpc rid .initializeR }
  else if method == "tools/list" then listToolsStep st rid
  else if method == "tools/call" then handleToolCall env st params.name params.arguments rid
  else
    { state := st,
      output := handleError st "UNKNOWN_METHOD" ("Unknown method: " ++ method) rid }

def processLine (env : Env) (st : ServerState) (line : InMsg) : StepResult :=
  match line with
  | .malformed _ => { state := st, output := handleError st "INVALID_JSON" "Invalid JSON input" none }
  | .mcp m p i => handleMcpMessage env st m p i
  | .legacy t a => handleToolCall env st t a none
  | .other =>
    { state := st,
      output := handleError st "INVALID_FORMAT" "Expected \x27method\x27 or \x27tool\x27 field" none }

structure RunResult where
  output : List OutLine
  events : List Event
  state : ServerState
deriving DecidableEq, Repr

/- McpServer.run: the read-dispatch-write loop over the decoded input lines,
   terminating on end of input. -/

def runServer (env : Env) (st : ServerState) : List InMsg → RunResult
  | [] => ⟨[], [], st⟩
  | l :: ls =>
    let r := processLine env st l
    let rest := runServer env r.state ls
    ⟨r.output ++ rest.output, r.events ++ rest.events, rest.state⟩

/- McpServer.__init__: load config, try the log-file port discovery, build
   the OscClient (whose constructor runs _init_client) and write the startup
   INFO records; _current_request_id is left unset.  The startup log
   timestamps use clock reading 0. -/

def freshServer (env : Env) : ServerState :=
  let cfg := loadConfig
  let cfg :=
    match env.logFilePort with
    | some p => { cfg with port := p }
    | none => cfg
  let (osc, _) := initClient env ⟨cfg, none, none⟩
  let lg := RingLogger.mk0 1000
  let lg :=
    match env.logFilePort with
    | some p => lg.logR 0 "INFO" ("Auto-discovered Sonic Pi port: " ++ toString p)
    | none => lg
  let lg := lg.logR 0 "INFO" "MCP server initialized with AI capabilities"
  { osc := osc, currentRequestId := none, ringLog := lg }

-- The quiet environment: no external faults, no discovery results, no AI.
def envQuiet : Env := {}

/- The reply discipline for an id-less request: either no output line, or a
   single JSON-RPC error envelope with id null and code -32000. -/
def noidShape (r : StepResult) : Prop :=
  r.output = [] ∨ ∃ m, r.output = [OutLine.errorL none (-32000) m]

/-! Theorems. -/

lemma logR_maxEntries (s : RingLogger) (now : ℚ) (lv msg : String) :
    (s.logR now lv msg).maxEntries = s.maxEntries := rfl

lemma logR_buffer (s : RingLogger) (now : ℚ) (lv msg : String) :
    (s.logR now lv msg).buffer
      = (s.buffer ++ [(⟨now * 1000, lv, msg⟩ : LogRecord)]).drop
          (s.buffer.length + 1 - s.maxEntries) := rfl

lemma logR_length_le (s : RingLogger) (now : ℚ) (lv msg : String)
    (h : s.buffer.length ≤ s.maxEntries) :
    (s.logR now lv msg).buffer.length ≤ s.maxEntries := by
  rw [logR_buffer, List.length_drop, List.length_append]
  simp only [List.length_cons, List.length_nil]
  omega

lemma logMany_cons (s : RingLogger) (x : ℚ × String × String)
    (xs : List (ℚ × String × String)) :
    s.logMany (x :: xs) = (s.logR x.1 x.2.1 x.2.2).logMany xs := rfl

lemma logMany_spec (xs : List (ℚ × String × String)) :
    ∀ s : RingLogger, s.buffer.length ≤ s.maxEntries →
      (s.logMany xs).maxEntries = s.maxEntries
      ∧ (s.logMany xs).buffer
          = (s.buffer ++ xs.map mkRecord).drop
              (s.buffer.length + xs.length - s.maxEntries) := by
  induction xs with
  | nil =>
    intro s h
    refine ⟨rfl, ?_⟩
    show s.buffer = _
    rw [List.map_nil, List.append_nil, List.length_nil, Nat.add_zero,
      Nat.sub_eq_zero_of_le h, List.drop_zero]
  | cons x xs ih =>
    intro s h
    have hstep : (s.logR x.1 x.2.1 x.2.2).buffer.length ≤ (s.logR x.1 x.2.1 x.2.2).maxEntries := by
      rw [logR_maxEntries]
      exact logR_length_le s x.1 x.2.1 x.2.2 h
    obtain ⟨h1, h2⟩ := ih (s.logR x.1 x.2.1 x.2.2) hstep
    rw [logMany_cons]
    refine ⟨by rw [h1, logR_maxEntries], ?_⟩
    rw [h2, logR_buffer, logR_maxEntries]
    have hk : s.buffer.length + 1 - s.maxEntries ≤ (s.buffer ++ [mkRecord x]).length := by
      rw [List.length_append]
      simp only [List.length_cons, List.length_nil]
      omega
    rw [show ((⟨x.1 * 1000, x.2.1, x.2.2⟩ : LogRecord)) = mkRecord x from rfl]
    rw [← List.drop_append_of_le_length hk, List.drop_drop, List.length_drop,
      List.length_append, List.append_assoc]
    show _ = (s.buffer ++ (mkRecord x :: xs.map mkRecord)).drop _
    rw [show ([mkRecord x] ++ xs.map mkRecord) = mkRecord x :: xs.map mkRecord from rfl]
    congr 1
    simp only [List.length_cons, List.length_nil, List.length_map]
    omega

/-- C2: for every capacity C and every sequence of N appends, the RingLog
retains exactly min(N, C) records, namely the last min(N, C) appended ones in
insertion order (the buffer equals the appended record list with all but the
final C elements dropped); when the appended timestamps are non-decreasing so
are the retained ones; and appending to a full buffer of positive capacity
evicts exactly the single oldest record before adding the new one. -/
theorem claim2_ring_retention (cap : Nat) (xs : List (ℚ × String × String)) :
    (((RingLogger.mk0 cap).logMany xs).buffer.length = min xs.length cap
      ∧ ((RingLogger.mk0 cap).logMany xs).buffer = (xs.map mkRecord).drop (xs.length - cap)
      ∧ ((xs.map mkRecord).Pairwise (fun a b => a.ts ≤ b.ts) →
          ((RingLogger.mk0 cap).logMany xs).buffer.Pairwise (fun a b => a.ts ≤ b.ts)))
    ∧ ∀ (t : RingLogger) (now : ℚ) (lv msg : String),
        t.buffer.length = t.maxEntries → 0 < t.maxEntries →
        (t.logR now lv msg).buffer = t.buffer.tail ++ [(⟨now * 1000, lv, msg⟩ : LogRecord)] := by
  obtain ⟨h1, h2⟩ := logMany_spec xs (RingLogger.mk0 cap) (by simp [RingLogger.mk0])
  have hbuf : ((RingLogger.mk0 cap).logMany xs).buffer
      = (xs.map mkRecord).drop (xs.length - cap) := by
    rw [h2]
    show ([] ++ xs.map mkRecord).drop (0 + xs.length - cap) = _
    rw [List.nil_append, Nat.zero_add]
  refine ⟨⟨?_, hbuf, ?_⟩, ?_⟩
  · rw [hbuf, List.length_drop, List.length_map]
    omega
  · intro hp
    rw [hbuf]
    exact hp.sublist (List.drop_sublist _ _)
  · intro t now lv msg hfull hpos
    rw [logR_buffer, hfull]
    have : t.maxEntries + 1 - t.maxEntries = 1 := by omega
    rw [this, List.drop_one]
    rcases ht : t.buffer with _ | ⟨a, as⟩
    · rw [ht] at hfull
      simp only [List.length_nil] at hfull
      omega
    · simp

/-- C2 witness: capacity 2 with three appends retains the last two records in
order; a full single-slot buffer evicts its only record on append. -/
theorem claim2_witness :
    ((RingLogger.mk0 2).logMany
        [((1 : ℚ), "INFO", "a"), ((2 : ℚ), "INFO", "b"), ((3 : ℚ), "INFO", "c")]).buffer.length
      = min 3 2
    ∧ ((RingLogger.mk0 2).logMany
        [((1 : ℚ), "INFO", "a"), ((2 : ℚ), "INFO", "b"), ((3 : ℚ), "INFO", "c")]).buffer.Pairwise
        (fun a b => a.ts ≤ b.ts)
    ∧ ((⟨1, [⟨0, "INFO", "z"⟩]⟩ : RingLogger).logR 5 "INFO" "w").buffer
        = [(⟨0, "INFO", "z"⟩ : LogRecord)].tail ++ [(⟨5 * 1000, "INFO", "w"⟩ : LogRecord)] := by
  have h := claim2_ring_retention 2
    [((1 : ℚ), "INFO", "a"), ((2 : ℚ), "INFO", "b"), ((3 : ℚ), "INFO", "c")]
  have hp : (([((1 : ℚ), "INFO", "a"), ((2 : ℚ), "INFO", "b"),
      ((3 : ℚ), "INFO", "c")]).map mkRecord).Pairwise (fun a b => a.ts ≤ b.ts) := by
    simp only [List.map_cons, List.map_nil, List.pairwise_cons, List.mem_cons, List.mem_singleton,
      List.not_mem_nil, mkRecord]
    norm_num
  exact ⟨h.1.1, h.1.2.2 hp, h.2 ⟨1, [⟨0, "INFO", "z"⟩]⟩ 5 "INFO" "w" (by decide) (by decide)⟩

/-- C8: get_entries with a since_ms bound returns no record with timestamp
at or below the bound, get_entries with no bound returns every retained
record, and in both cases the result is a sublist of the buffer contents in
insertion order. -/
theorem claim8_get_entries (s : RingLogger) (m : ℚ) :
    (∀ e ∈ s.getEntries (some m), m < e.ts)
    ∧ s.getEntries none = s.buffer.map toEntry
    ∧ ∀ q : Option ℚ, List.Sublist (s.getEntries q) (s.buffer.map toEntry) := by
  refine ⟨?_, ?_, ?_⟩
  · intro e he
    unfold RingLogger.getEntries at he
    rw [List.mem_map] at he
    obtain ⟨r, hr, rfl⟩ := he
    rw [List.mem_filter] at hr
    have := hr.2
    simp only [decide_eq_true_eq] at this
    exact this
  · unfold RingLogger.getEntries
    rw [List.filter_true]
  · intro q
    exact (List.filter_sublist _).map toEntry

/-- C8 witness: on a concrete two-record buffer, the bounded query excludes
the old record and the unbounded query returns both. -/
theorem claim8_witness :
    (2 : ℚ) < (toEntry ⟨3, "INFO", "b"⟩).ts
    ∧ (⟨2, [⟨1, "INFO", "a"⟩, ⟨3, "INFO", "b"⟩]⟩ : RingLogger).getEntries none
        = [⟨1, "INFO", "a"⟩, ⟨3, "INFO", "b"⟩].map toEntry := by
  have h := claim8_get_entries ⟨2, [⟨1, "INFO", "a"⟩, ⟨3, "INFO", "b"⟩]⟩ 2
  exact ⟨h.1 (toEntry ⟨3, "INFO", "b"⟩) (by decide), h.2.1⟩

/-- C5: evaluated at a concrete lsof listing in which a Sonic Pi process has
a UDP socket on 127.0.0.1:4560, the port scan used by the transport client
to rebind its endpoint returns 4560 — the reserved cue port is not excluded
(only the separate diagnostics scanner excludes it), contradicting the
claim; the unavailable-tool case does return none. -/
theorem claim5_discovery_returns_4560 :
    discoverSonicPiPort (some "sonic-pi 410 user 12u IPv4 0x0 0t0 UDP 127.0.0.1:4560")
      = some 4560
    ∧ discoverSonicPiPort none = none := by
  exact ⟨by decide, rfl⟩

/-- C4: when the underlying send raises, send_message re-raises exactly that
fault to the caller, attempts the send exactly once (never retrying it),
logs the fault, and then runs the endpoint re-initialization exactly once,
leaving the rebound client installed. -/
theorem claim4_send_fault (env : Env) (st : OscClientState) (address : String)
    (args : List PyVal) (f ch : String) (cp : Nat)
    (hc : st.client = some (ch, cp)) (hf : env.oscSendFault = some f) :
    sendMessage env st address args
      = ((initClient env st).1, .error f,
         [.send ch cp address (args.map typedArg) false,
          .plog ("ERROR: Failed to send OSC message to " ++ address ++ ": " ++ f),
          .clientInit]) := by
  unfold sendMessage
  simp only [hc, hf, Option.isNone_some, Bool.false_eq_true, if_false]
  rfl

/-- C4 witness: a concrete faulting send with a bound client. -/
theorem claim4_witness :
    sendMessage { oscSendFault := some "boom" }
        ⟨loadConfig, some ("127.0.0.1", 4557), none⟩ "/cue" [.str "x"]
      = ((initClient { oscSendFault := some "boom" }
            ⟨loadConfig, some ("127.0.0.1", 4557), none⟩).1, .error "boom",
         [.send "127.0.0.1" 4557 "/cue" [.s "x"] false,
          .plog "ERROR: Failed to send OSC message to /cue: boom",
          .clientInit]) := by
  exact claim4_send_fault { oscSendFault := some "boom" }
    ⟨loadConfig, some ("127.0.0.1", 4557), none⟩ "/cue" [.str "x"] "boom" "127.0.0.1" 4557 rfl rfl

lemma aiTruthyStep_some_ne (avail : Bool) (ai : Option String) (c : String)
    (h : aiTruthyStep avail ai = some c) : c ≠ "" := by
  unfold aiTruthyStep at h
  split at h
  · rcases hai : generateAiCode avail ai with _ | d <;> rw [hai] at h
    · exact absurd h (by simp)
    · by_cases hd : d = ""
      · simp [hd] at h
      · simp only [hd, ne_eq, not_false_eq_true, if_true, Option.some_inj] at h
        exact h ▸ hd
  · exact absurd h (by simp)

lemma aiTruthyStep_unavailable (ai : Option String) : aiTruthyStep false ai = none := rfl

lemma aiTruthyStep_noContent (avail : Bool) : aiTruthyStep avail none = none := by
  cases avail <;> rfl

/-- C6: generate_music_code is total — it always returns a non-empty code
string and a method tag drawn from exactly the set ai, patterns, fallback;
when the external generator is unavailable or yields nothing the method tag
is never ai, and when the pattern-based stage also yields nothing the result
is exactly the hardcoded minimal payload tagged fallback. -/
theorem claim6_generate_music (avail : Bool) (ai : Option String) (req : String) :
    ((generateMusicCode avail ai req).2 = "ai" ∨ (generateMusicCode avail ai req).2 = "patterns"
      ∨ (generateMusicCode avail ai req).2 = "fallback")
    ∧ (generateMusicCode avail ai req).1 ≠ ""
    ∧ (avail = false → (generateMusicCode avail ai req).2 ≠ "ai")
    ∧ (ai = none → (generateMusicCode avail ai req).2 ≠ "ai")
    ∧ ((avail = false ∨ ai = none) → generatePatternBasedCode (parseRequest req) = none →
        generateMusicCode avail ai req = (fallbackCode, "fallback")) := by
  have hfb : fallbackCode ≠ "" := by decide
  have hstepNone : (avail = false ∨ ai = none) → aiTruthyStep avail ai = none := by
    rintro (h | h) <;> subst h
    · exact aiTruthyStep_unavailable ai
    · exact aiTruthyStep_noContent avail
  rcases hstep : aiTruthyStep avail ai with _ | c
  · rcases hpat : generatePatternBasedCode (parseRequest req) with _ | p
    · refine ⟨?_, ?_, ?_, ?_, ?_⟩ <;>
        simp [generateMusicCode, hstep, hpat, hfb]
    · by_cases hp : p = ""
      · refine ⟨?_, ?_, ?_, ?_, ?_⟩ <;>
          simp [generateMusicCode, hstep, hpat, hp, hfb]
      · refine ⟨?_, ?_, ?_, ?_, ?_⟩ <;>
          simp [generateMusicCode, hstep, hpat, hp, hfb]
  · have hc : c ≠ "" := aiTruthyStep_some_ne avail ai c hstep
    refine ⟨?_, ?_, ?_, ?_, ?_⟩
    · simp [generateMusicCode, hstep]
    · simp [generateMusicCode, hstep, hc]
    · intro h
      rw [hstepNone (Or.inl h)] at hstep
      exact absurd hstep (by simp)
    · intro h
      rw [hstepNone (Or.inr h)] at hstep
      exact absurd hstep (by simp)
    · intro h _
      rw [hstepNone h] at hstep
      exact absurd hstep (by simp)

/-- C6 witness: with no external generator and a request matching no
pattern, the result is the hardcoded fallback payload. -/
theorem claim6_witness :
    ((generateMusicCode false none "hello").2 = "ai"
      ∨ (generateMusicCode false none "hello").2 = "patterns"
      ∨ (generateMusicCode false none "hello").2 = "fallback")
    ∧ (generateMusicCode false none "hello").1 ≠ ""
    ∧ generateMusicCode false none "hello" = (fallbackCode, "fallback") := by
  have h := claim6_generate_music false none "hello"
  exact ⟨h.1, h.2.1, h.2.2.2.2 (Or.inl rfl) (by decide)⟩

lemma exists_error_eq (i : RequestId) (c : Int) (m : String) (hi : i = none)
    (hc : c = -32000) :
    ∃ m2, [OutLine.errorL i c m] = [OutLine.errorL none (-32000) m2] :=
  ⟨m, by rw [hi, hc]⟩

/- Every dispatched handler, run for a request without an id, either writes
   nothing (success replies are suppressed) or writes exactly one JSON-RPC
   error envelope with id null and numeric code -32000. -/

lemma hRunCode_noid (env : Env) (st : ServerState) (a : ToolArgs)
    (hcur : st.currentRequestId = some none) : noidShape (hRunCode env st a none) := by
  unfold noidShape hRunCode
  repeat' split
  all_goals
    first
      | exact Or.inl rfl
      | (right
         simp only [handleError]
         refine exists_error_eq _ _ _ ?_ ?_
         · simp [storedId, hcur]
         · decide)

lemma hStopAll_noid (env : Env) (st : ServerState) (a : ToolArgs)
    (hcur : st.currentRequestId = some none) : noidShape (hStopAll env st a none) := by
  unfold noidShape hStopAll
  repeat' split
  all_goals
    first
      | exact Or.inl rfl
      | (right
         simp only [handleError]
         refine exists_error_eq _ _ _ ?_ ?_
         · simp [storedId, hcur]
         · decide)

lemma hSetBpm_noid (env : Env) (st : ServerState) (a : ToolArgs)
    (hcur : st.currentRequestId = some none) : noidShape (hSetBpm env st a none) := by
  unfold noidShape hSetBpm
  repeat' split
  all_goals
    first
      | exact Or.inl rfl
      | (right
         simp only [handleError]
         refine exists_error_eq _ _ _ ?_ ?_
         · simp [storedId, hcur]
         · decide)

lemma hCue_noid (env : Env) (st : ServerState) (a : ToolArgs)
    (hcur : st.currentRequestId = some none) : noidShape (hCue env st a none) := by
  unfold noidShape hCue
  repeat' split
  all_goals
    first
      | exact Or.inl rfl
      | (right
         simp only [handleError]
         refine exists_error_eq _ _ _ ?_ ?_
         · simp [storedId, hcur]
         · decide)

lemma hTailLogs_noid (env : Env) (st : ServerState) (a : ToolArgs)
    (hcur : st.currentRequestId = some none) : noidShape (hTailLogs env st a none) := by
  unfold noidShape hTailLogs
  repeat' split
  all_goals
    first
      | exact Or.inl rfl
      | (right
         simp only [handleError]
         refine exists_error_eq _ _ _ ?_ ?_
         · simp [storedId, hcur]
         · decide)

lemma hDiagnose_noid (env : Env) (st : ServerState) (a : ToolArgs)
    (hcur : st.currentRequestId = some none) : noidShape (hDiagnose env st a none) := by
  unfold noidShape hDiagnose
  repeat' split
  all_goals
    first
      | exact Or.inl rfl
      | (right
         simp only [handleError]
         refine exists_error_eq _ _ _ ?_ ?_
         · simp [storedId, hcur]
         · decide)

lemma hGenerateMusic_noid (env : Env) (st : ServerState) (a : ToolArgs)
    (hcur : st.currentRequestId = some none) : noidShape (hGenerateMusic env st a none) := by
  unfold noidShape hGenerateMusic
  repeat' split
  all_goals
    first
      | exact Or.inl rfl
      | (right
         simp only [handleError]
         refine exists_error_eq _ _ _ ?_ ?_
         · simp [storedId, hcur]
         · decide)

lemma hListPatterns_noid (env : Env) (st : ServerState) (a : ToolArgs)
    (_hcur : st.currentRequestId = some none) : noidShape (hListPatterns env st a none) := by
  unfold noidShape hListPatterns
  exact Or.inl rfl

lemma hGetPatternCont_noid (st : ServerState) (cat name : String) (res : Option String)
    (hcur : st.currentRequestId = some none) : noidShape (hGetPatternCont st none cat name res) := by
  unfold noidShape hGetPatternCont
  repeat' split
  all_goals
    first
      | exact Or.inl rfl
      | (right
         simp only [handleError]
         refine exists_error_eq _ _ _ ?_ ?_
         · simp [storedId, hcur]
         · decide)

lemma hGetPattern_noid (env : Env) (st : ServerState) (a : ToolArgs)
    (hcur : st.currentRequestId = some none) : noidShape (hGetPattern env st a none) := by
  unfold noidShape hGetPattern
  repeat' split
  all_goals
    first
      | exact hGetPatternCont_noid st _ _ _ hcur
      | (right
         simp only [handleError]
         refine exists_error_eq _ _ _ ?_ ?_
         · simp [storedId, hcur]
         · decide)

lemma hCreateAndPlay_noid (env : Env) (st : ServerState) (a : ToolArgs)
    (hcur : st.currentRequestId = some none) : noidShape (hCreateAndPlay env st a none) := by
  unfold noidShape hCreateAndPlay
  repeat' split
  all_goals
    first
      | exact Or.inl rfl
      | (right
         simp only [handleError]
         refine exists_error_eq _ _ _ ?_ ?_
         · simp [storedId, hcur]
         · decide)

lemma dispatch_noid (env : Env) (st : ServerState) (tool : String) (a : ToolArgs)
    (hcur : st.currentRequestId = some none) :
    (dispatchTool env st tool a none).output = []
    ∨ ∃ m, (dispatchTool env st tool a none).output = [OutLine.errorL none (-32000) m] := by
  show noidShape (dispatchTool env st tool a none)
  unfold dispatchTool
  repeat' split
  all_goals
    first
      | exact hRunCode_noid env st a hcur
      | exact hStopAll_noid env st a hcur
      | exact hSetBpm_noid env st a hcur
      | exact hCue_noid env st a hcur
      | exact hTailLogs_noid env st a hcur
      | exact hDiagnose_noid env st a hcur
      | exact hGenerateMusic_noid env st a hcur
      | exact hListPatterns_noid env st a hcur
      | exact hGetPattern_noid env st a hcur
      | exact hCreateAndPlay_noid env st a hcur

/- The tool-call entry point for an id-less request: nothing is written, or
   one null-id -32000 error from the handler, or (for an unregistered name)
   one -32000 error whose id is whatever _handle_error recovers from the
   stored _current_request_id. -/
lemma handleToolCall_noid (env : Env) (st : ServerState) (tool : Option String)
    (a : ToolArgs) :
    (handleToolCall env st tool a none).output = []
    ∨ (isRegistered tool = true
        ∧ ∃ m, (handleToolCall env st tool a none).output = [OutLine.errorL none (-32000) m])
    ∨ (isRegistered tool = false
        ∧ (handleToolCall env st tool a none).output
            = [OutLine.errorL (storedId st none) (-32000) ("Unknown tool: " ++ showToolName tool)]) := by
  unfold handleToolCall
  by_cases hreg : isRegistered tool = true
  · rw [if_pos hreg]
    rcases dispatch_noid env { st with currentRequestId := some none } (tool.getD "") a rfl
      with h | ⟨m, h⟩
    · exact Or.inl h
    · exact Or.inr (Or.inl ⟨hreg, ⟨m, h⟩⟩)
  · rw [if_neg hreg]
    right; right
    refine ⟨by simpa using hreg, ?_⟩
    simp only [handleError]
    have hnc : numericCode "UNKNOWN_TOOL" = -32000 := by decide
    rw [hnc]

/-- C1 counterexample: the exact legacy scenario input of the claim — the
cue tool invoked with tag verse through legacy framing — writes zero
response lines (not the claimed one line), while the single outbound OSC
message to the configured cue path with string argument verse is sent. -/
theorem claim1_counterexample :
    (runServer envQuiet (freshServer envQuiet)
        [.legacy (some "cue") { tag := some "verse" }]).output = []
    ∧ (runServer envQuiet (freshServer envQuiet)
        [.legacy (some "cue") { tag := some "verse" }]).events.filter Event.isSendEv
      = [.send "127.0.0.1" 4557 "/cue" [.s "verse"] true] :=
  ⟨rfl, rfl⟩

/-- C1 corrected: a legacy-framed request carries no correlation id, so a
successful handler writes no response line at all (every line a legacy
request can produce is a JSON-RPC error envelope); the cue/verse scenario
sends exactly one outbound message to the configured cue path with argument
verse and writes nothing. -/
theorem claim1_amended (env : Env) (st : ServerState) (tool : Option String) (a : ToolArgs) :
    processLine env st (.legacy tool a) = handleToolCall env st tool a none
    ∧ ((handleToolCall env st tool a none).output.all OutLine.isJsonRpcError) = true
    ∧ (runServer envQuiet (freshServer envQuiet)
        [.legacy (some "cue") { tag := some "verse" }]).output = []
    ∧ (runServer envQuiet (freshServer envQuiet)
        [.legacy (some "cue") { tag := some "verse" }]).events.filter Event.isSendEv
      = [.send "127.0.0.1" 4557 "/cue" [.s "verse"] true] := by
  refine ⟨rfl, ?_, rfl, rfl⟩
  rcases handleToolCall_noid env st tool a with h | ⟨_, m, h⟩ | ⟨_, h⟩ <;> rw [h] <;> rfl

/-- C3 counterexample: after a tools/call request with id 7 is processed,
the malformed line not json is answered with an error envelope whose id is
the stale stored id 7, not null as the claim requires. -/
theorem claim3_counterexample :
    (runServer envQuiet (freshServer envQuiet)
        [.mcp "tools/call" { name := some "stop_all" } (some 7), .malformed "not json"]).output
      = [.result (some 7) .stopAllR, .errorL (some 7) (-32700) "Invalid JSON input"] :=
  rfl

/-- C3 corrected: every malformed input line is answered with exactly one
error line with code -32700 and message Invalid JSON input, whose id is the
currently stored request id — null on a fresh session, but a stale id after
an id-bearing tool call — the state is unchanged and the loop continues with
the remaining input lines. -/
theorem claim3_amended (env : Env) (st : ServerState) (raw : String) (rest : List InMsg) :
    (processLine env st (.malformed raw)).output
        = [.errorL (storedId st none) (-32700) "Invalid JSON input"]
    ∧ (processLine env st (.malformed raw)).state = st
    ∧ runServer env st (.malformed raw :: rest)
        = ⟨.errorL (storedId st none) (-32700) "Invalid JSON input"
              :: (runServer env st rest).output,
           (runServer env st rest).events, (runServer env st rest).state⟩
    ∧ (processLine env (freshServer env) (.malformed raw)).output
        = [.errorL none (-32700) "Invalid JSON input"] :=
  ⟨rfl, rfl, rfl, rfl⟩

/-- C7 counterexample: the legacy request naming the unknown tool nope is
answered with a JSON-RPC envelope carrying the numeric code -32000 — not the
legacy shape with ok false and a string code. -/
theorem claim7_counterexample :
    (runServer envQuiet (freshServer envQuiet) [.legacy (some "nope") {}]).output
      = [.errorL none (-32000) "Unknown tool: nope"]
    ∧ ((runServer envQuiet (freshServer envQuiet) [.legacy (some "nope") {}]).output.all
        fun l => !l.isLegacyShape) = true :=
  ⟨rfl, rfl⟩

/-- C7 corrected: every response line produced while processing a
legacy-framed request is a JSON-RPC error envelope with the numeric code
-32000; the legacy error shape with ok false and a string code declared in
the schemas is never written. -/
theorem claim7_amended (env : Env) (st : ServerState) (tool : Option String) (a : ToolArgs) :
    ∀ line ∈ (handleToolCall env st tool a none).output,
      line.isLegacyShape = false ∧ ∃ i m, line = OutLine.errorL i (-32000) m := by
  intro line hline
  rcases handleToolCall_noid env st tool a with h | ⟨_, m, h⟩ | ⟨_, h⟩ <;> rw [h] at hline
  · exact absurd hline (by simp)
  · rw [List.mem_singleton] at hline
    subst hline
    exact ⟨rfl, none, m, rfl⟩
  · rw [List.mem_singleton] at hline
    subst hline
    exact ⟨rfl, _, _, rfl⟩

/-- C7 witness: the concrete error line produced for an unknown legacy tool
is a JSON-RPC envelope, not the legacy shape. -/
theorem claim7_witness :
    (OutLine.errorL none (-32000) "Unknown tool: nope").isLegacyShape = false
    ∧ ∃ i m, OutLine.errorL none (-32000) "Unknown tool: nope" = OutLine.errorL i (-32000) m :=
  claim7_amended envQuiet (freshServer envQuiet) (some "nope") {}
    (OutLine.errorL none (-32000) "Unknown tool: nope") (by decide)

/-- C9: the set_bpm transport send is reached only when the bpm argument is
a present positive number; bpm 0 and bpm -5 are rejected by validation with
an error envelope and produce no transport event at all. -/
theorem claim9_set_bpm (env : Env) (st : ServerState) (a : ToolArgs) (rid : RequestId) :
    ((hSetBpm env st a rid).events.any Event.isSendEv = true →
      ∃ b, a.bpm = some b ∧ 0 < b)
    ∧ (a.bpm = some 0 →
        (hSetBpm env st a rid).events = []
        ∧ ∃ i m, (hSetBpm env st a rid).output = [OutLine.errorL i (-32000) m])
    ∧ (a.bpm = some (-5) →
        (hSetBpm env st a rid).events = []
        ∧ ∃ i m, (hSetBpm env st a rid).output = [OutLine.errorL i (-32000) m]) := by
  rcases hb : a.bpm with _ | b
  · have hout : hSetBpm env st a rid
        = { state := st, output := handleError st "SET_BPM_ERROR" "Invalid input: bpm missing" rid } := by
      unfold hSetBpm parseSetBpmInput
      rw [hb]
    refine ⟨?_, ?_, ?_⟩
    · intro h
      rw [hout] at h
      exact absurd h (by simp)
    · intro h
      simp at h
    · intro h
      simp at h
  · by_cases hpos : (0 : ℚ) < b
    · refine ⟨fun _ => ⟨b, rfl, hpos⟩, ?_, ?_⟩
      · intro h
        rw [Option.some_inj.mp h] at hpos
        exact absurd hpos (by norm_num)
      · intro h
        rw [Option.some_inj.mp h] at hpos
        exact absurd hpos (by norm_num)
    · have hout : hSetBpm env st a rid
        = { state := st,
            output := handleError st "SET_BPM_ERROR"
              "Invalid input: bpm must be a positive float" rid } := by
        unfold hSetBpm parseSetBpmInput
        rw [hb]
        dsimp only
        rw [if_neg hpos]
      refine ⟨?_, ?_, ?_⟩
      · intro h
        rw [hout] at h
        exact absurd h (by simp)
      · intro _
        rw [hout]
        exact ⟨rfl, _, _, rfl⟩
      · intro _
        rw [hout]
        exact ⟨rfl, _, _, rfl⟩

/-- C9 witness: set_bpm with bpm 0 produces an error envelope and sends
nothing downstream. -/
theorem claim9_witness :
    (hSetBpm envQuiet (freshServer envQuiet) { bpm := some 0 } none).events = []
    ∧ ∃ i m, (hSetBpm envQuiet (freshServer envQuiet) { bpm := some 0 } none).output
        = [OutLine.errorL i (-32000) m] :=
  (claim9_set_bpm envQuiet (freshServer envQuiet) { bpm := some 0 } none).2.1 rfl

/-- C10 counterexample: a tools/list request without an id — a notification —
still writes its full success response line (with id null), so success
replies are not uniformly suppressed for id-less requests. -/
theorem claim10_counterexample :
    (runServer envQuiet (freshServer envQuiet) [.mcp "tools/list" {} none]).output
      = [.toolsListL none toolsListData] :=
  rfl

/-- C10 corrected: for requests without an id, success replies of initialize
and of every dispatched tool handler are suppressed, but tools/list always
writes its response line; an error from a dispatched handler writes exactly
one JSON-RPC error line with id null, while unknown-tool and unknown-method
errors write one error line whose id is the stored current request id —
null on a fresh session or after an id-less dispatch, possibly stale
otherwise. -/
theorem claim10_amended (env : Env) (st : ServerState) (p : McpParams) (tool : Option String)
    (a : ToolArgs) (m : String) :
    (processLine env st (.mcp "initialize" p none)).output = []
    ∧ (processLine env st (.mcp "tools/list" p none)).output = [.toolsListL none toolsListData]
    ∧ processLine env st (.mcp "tools/call" p none)
        = handleToolCall env st p.name p.arguments none
    ∧ (isRegistered tool = true →
        (handleToolCall env st tool a none).output = []
        ∨ ∃ msg, (handleToolCall env st tool a none).output = [OutLine.errorL none (-32000) msg])
    ∧ (isRegistered tool = false →
        (handleToolCall env st tool a none).output
          = [OutLine.errorL (storedId st none) (-32000) ("Unknown tool: " ++ showToolName tool)])
    ∧ (m ≠ "initialize" → m ≠ "tools/list" → m ≠ "tools/call" →
        (processLine env st (.mcp m p none)).output
          = [OutLine.errorL (storedId st none) (-32601) ("Unknown method: " ++ m)])
    ∧ ((st.currentRequestId = none ∨ st.currentRequestId = some none) →
        storedId st none = none) := by
  refine ⟨rfl, rfl, rfl, ?_, ?_, ?_, ?_⟩
  · intro hreg
    rcases handleToolCall_noid env st tool a with h | ⟨_, msg, h⟩ | ⟨hfalse, _⟩
    · exact Or.inl h
    · exact Or.inr ⟨msg, h⟩
    · rw [hreg] at hfalse
      cases hfalse
  · intro hreg
    unfold handleToolCall
    rw [hreg, if_neg (by simp)]
    rfl
  · intro h1 h2 h3
    have e1 : (m == "initialize") = false := beq_eq_false_iff_ne.mpr h1
    have e2 : (m == "tools/list") = false := beq_eq_false_iff_ne.mpr h2
    have e3 : (m == "tools/call") = false := beq_eq_false_iff_ne.mpr h3
    show (handleMcpMessage env st m p none).output = _
    unfold handleMcpMessage
    rw [e1, e2, e3]
    rfl
  · intro h
    rcases h with h | h <;> simp [storedId, h]

/-- C10 witness: the registered tool cue dispatched without an id, an
unknown method on a fresh session, and the stored-id fact at the fresh
state. -/
theorem claim10_witness :
    ((handleToolCall envQuiet (freshServer envQuiet) (some "cue") {} none).output = []
      ∨ ∃ msg, (handleToolCall envQuiet (freshServer envQuiet) (some "cue") {} none).output
          = [OutLine.errorL none (-32000) msg])
    ∧ (processLine envQuiet (freshServer envQuiet) (.mcp "bogus" {} none)).output
        = [OutLine.errorL (storedId (freshServer envQuiet) none) (-32601) "Unknown method: bogus"]
    ∧ storedId (freshServer envQuiet) none = none := by
  have h := claim10_amended envQuiet (freshServer envQuiet) {} (some "cue") {} "bogus"
  exact ⟨h.2.2.2.1 (by decide),
    h.2.2.2.2.2.1 (by decide) (by decide) (by decide),
    h.2.2.2.2.2.2 (Or.inl rfl)⟩

end SonicPiMcp
